import Mathlib

/-! HCube: cubes in N dimensions, and the `ex` exception classes.

A shallow embedding of `Exceptions.h` and `HCube.cpp`.

* C++ `const char*` and `std::string` values are Lean `String`s.
* C++ `int` is 32 bits wide: its values are the `Int`s from `INT_MIN` to `INT_MAX`.
  The only integer arithmetic of the program is `d1 + d2` and `1/(d1+d2)` in
  `operator*`: the sum is `intAdd`, which wraps around beyond the range, and the
  division is `cdiv`, which has no result for the divisor 0.
* C++ `double` is a type parameter `R` carrying the operations the program uses
  (`DoubleArith`), so that nothing proved here depends on rounding.  The instance on
  `ℚ` makes every definition executable.
* A call that can end the process (`std::exit`) returns an `Outcome`.
-/

/-! ## Exceptions.h -/

namespace ex

/-- Source `const static std::string _WARN("EXCEPTION:");` -/
def _WARN : String := "EXCEPTION:"

/-- Source `const static std::string pad(_WARN.length()+1, ' ');` -/
def pad : String := String.mk (List.replicate (_WARN.length + 1) ' ')

/-- The data members of `class Base_Exception`. -/
structure Base_Exception where
  text : String
  message : String
deriving DecidableEq, Repr

namespace Base_Exception

/-- Source `Base_Exception(const char* mess)`. -/
def ofMess (mess : String) : Base_Exception :=
  { message := mess
    text := _WARN ++ " " ++ mess }

/-- Source `Base_Exception(const char* File, int Line, const char* mess)`. -/
def ofOrigin (File : String) (Line : Int) (mess : String) : Base_Exception :=
  { message := mess
    text := _WARN ++ " (" ++ File ++ ":" ++ toString Line ++ ") " ++ mess }

/-- Source `Base_Exception(const char* File, int Line, const char* Info, const char* mess)`;
`std::endl` on the string stream inserts a newline. -/
def ofOriginInfo (File : String) (Line : Int) (Info mess : String) : Base_Exception :=
  { message := mess
    text := _WARN ++ " (" ++ File ++ ":" ++ toString Line ++ ") " ++ mess ++ "\n" ++ pad ++ Info }

/-- Source `Base_Exception(const char* Info, const char* mess)`. -/
def ofInfo (Info mess : String) : Base_Exception :=
  { message := mess
    text := _WARN ++ " " ++ mess ++ "\n" ++ pad ++ Info }

/-- Source `virtual const char* what() const throw()`. -/
def what (e : Base_Exception) : String := e.text

end Base_Exception

/-- The twelve classes derived from `Base_Exception`. -/
inductive Kind where
  | divide_by_zero
  | negative_value
  | maximum_value
  | minimum_value
  | zero_value
  | wrong_number
  | undefined_argument
  | invalid_length
  | unknown_filetype
  | wrong_type
  | cannot_open
  | incompatible_objects
deriving DecidableEq, Repr

/-- The string literal that the constructor `K()` of each class passes as `mess`. -/
def Kind.messNoArgs : Kind → String
  | .divide_by_zero => "trying to divide by zero"
  | .negative_value => "unexpected negative value"
  | .maximum_value => "value exceeds maximum"
  | .minimum_value => "value is below minimum value"
  | .zero_value => "unexpected zero value"
  | .wrong_number => "wrong number of command line arguments"
  | .undefined_argument => "undefined or unknown argument"
  | .invalid_length => "invalid length of container"
  | .unknown_filetype => "trying to read an unkown filetype"
  | .wrong_type => "trying to read an object with the wrong type"
  | .cannot_open => "I cannot open the file"
  | .incompatible_objects => "trying to perform an operation on incompatible objects"

/-- The string literal that the constructor `K(const char* Info)` of each class passes
as `mess`. -/
def Kind.messInfo : Kind → String
  | .divide_by_zero => "trying to divide by zero"
  | .negative_value => "unexpected negative value"
  | .maximum_value => "value exceeds maximum"
  | .minimum_value => "value is below minimum value"
  | .zero_value => "unexpected zero value"
  | .wrong_number => "wrong number of command line arguments"
  | .undefined_argument => "undefined or unknown argument"
  | .invalid_length => "invalid length of container"
  | .unknown_filetype => "trying to read an unkown filetype"
  | .wrong_type => "trying to make an object of the wrong type."
  | .cannot_open => "I cannot open the file"
  | .incompatible_objects => "trying to perform an operation on incompatible objects"

/-- The string literal that the constructor `K(const char* File, int Line)` of each class
passes as `mess`. -/
def Kind.messOrigin : Kind → String
  | .divide_by_zero => "trying to divide by zero"
  | .negative_value => "unexpected negative value"
  | .maximum_value => "value exceeds maximum"
  | .minimum_value => "value is below minimum value"
  | .zero_value => "unexpected zero value"
  | .wrong_number => "wrong number of command line arguments"
  | .undefined_argument => "undefined or unknown argument"
  | .invalid_length => "invalid length of container"
  | .unknown_filetype => "trying to read an unkown filetype"
  | .wrong_type => "trying to make an object of the wrong type."
  | .cannot_open => "I cannot open the file"
  | .incompatible_objects => "trying to perform an operation on incompatible objects"

/-- The string literal that the constructor `K(const char* File, int Line, const char* Info)`
of each class passes as `mess`. -/
def Kind.messOriginInfo : Kind → String
  | .divide_by_zero => "trying to divide by zero"
  | .negative_value => "unexpected negative value"
  | .maximum_value => "value exceeds maximum"
  | .minimum_value => "value is below minimum value"
  | .zero_value => "unexpected zero value"
  | .wrong_number => "wrong number of command line arguments"
  | .undefined_argument => "undefined or unknown argument"
  | .invalid_length => "invalid length of container"
  | .unknown_filetype => "trying to read an unkown filetype"
  | .wrong_type => "trying to make an object of the wrong type."
  | .cannot_open => "I cannot open the file"
  | .incompatible_objects => "trying to perform an operation on incompatible objects"

/-- An exception object of one of the derived classes: its class and its
`Base_Exception` subobject (the derived classes add no members). -/
structure Exception where
  kind : Kind
  base : Base_Exception
deriving DecidableEq, Repr

/-- Member `what()` of a derived-class object: it is the inherited `Base_Exception::what`. -/
def Exception.what (e : Exception) : String := e.base.what

/-- The constructor `K()`. -/
def construct (K : Kind) : Exception :=
  ⟨K, Base_Exception.ofMess K.messNoArgs⟩

/-- The constructor `K(const char* Info)`. -/
def constructInfo (K : Kind) (Info : String) : Exception :=
  ⟨K, Base_Exception.ofInfo Info K.messInfo⟩

/-- The constructor `K(const char* File, int Line)`. -/
def constructOrigin (K : Kind) (File : String) (Line : Int) : Exception :=
  ⟨K, Base_Exception.ofOrigin File Line K.messOrigin⟩

/-- The constructor `K(const char* File, int Line, const char* Info)`. -/
def constructOriginInfo (K : Kind) (File : String) (Line : Int) (Info : String) : Exception :=
  ⟨K, Base_Exception.ofOriginInfo File Line Info K.messOriginInfo⟩

/-- The canonical description of each kind as the specification's table words it
(section 4.1); it is the text that the literals of the constructors are compared with,
and no definition of the program uses it. -/
def Kind.canonicalDescription : Kind → String
  | .divide_by_zero => "trying to divide by zero"
  | .negative_value => "unexpected negative value"
  | .maximum_value => "value exceeds maximum"
  | .minimum_value => "value is below minimum value"
  | .zero_value => "unexpected zero value"
  | .wrong_number => "wrong number of command line arguments"
  | .undefined_argument => "undefined or unknown argument"
  | .invalid_length => "invalid length of container"
  | .unknown_filetype => "trying to read an unknown filetype"
  | .wrong_type => "trying to make an object of the wrong type"
  | .cannot_open => "cannot open the file"
  | .incompatible_objects => "trying to perform an operation on incompatible objects"

end ex

/-! ## Arithmetic -/

/-- The operations of C++ `double` that `HCube.cpp` uses: the literals `0.` and `1.`,
`+`, `-`, `*`, and `std::pow` with an `int` exponent, together with the facts about
them that the proofs rely on (they hold for IEEE-754 arithmetic: addition and
multiplication are commutative, `pow(x, 0)` is 1 and `pow(x, 1)` is `x` for every `x`). -/
class DoubleArith (R : Type) extends Zero R, One R, Add R, Sub R, Mul R where
  pow : R → Int → R
  add_comm : ∀ x y : R, x + y = y + x
  mul_comm : ∀ x y : R, x * y = y * x
  pow_zero : ∀ x : R, pow x 0 = 1
  pow_one : ∀ x : R, pow x 1 = x

/-- Exact rational arithmetic, with `pow x n = x ^ n`.  It serves to evaluate the
definitions at concrete inputs; every input used below has a nonzero base wherever the
exponent is negative, where `x ^ n` and `std::pow` agree on exactly representable values. -/
instance instDoubleArithRat : DoubleArith ℚ where
  pow x n := x ^ n
  add_comm := add_comm
  mul_comm := mul_comm
  pow_zero := zpow_zero
  pow_one := zpow_one

/-- The least value of C++ `int` (32 bits, two's complement). -/
def INT_MIN : Int := -2147483648

/-- The greatest value of C++ `int` (32 bits, two's complement). -/
def INT_MAX : Int := 2147483647

/-- The integer is a value of C++ `int`. -/
def inIntRange (n : Int) : Prop := INT_MIN ≤ n ∧ n ≤ INT_MAX

/-- Membership of the `int` range is decidable. -/
instance instDecidableInIntRange (n : Int) : Decidable (inIntRange n) :=
  inferInstanceAs (Decidable (INT_MIN ≤ n ∧ n ≤ INT_MAX))

/-- C++ `a + b` on `int`: the sum when it is a value of `int`; beyond the range the
compiled code keeps the low 32 bits, so the sum wraps around modulo `2^32` (the language
standard leaves this case undefined). -/
def intAdd (a b : Int) : Int :=
  (a + b + 2147483648) % 4294967296 - 2147483648

/-- C++ `a / b` on `int`: truncation toward zero; division by zero has no defined
result (`none`). -/
def cdiv (a b : Int) : Option Int :=
  if b = 0 then none else some (Int.tdiv a b)

/-- How a call ends: it returns a value; or an exception `thrown` is caught at the
raise site, `out` is written to `std::cout` and the process ends through
`std::exit(status)`; or its behaviour is undefined. -/
inductive Outcome (α : Type) where
  | returned (value : α)
  | exited (thrown : ex.Exception) (out : String) (status : Int)
  | undefined
deriving DecidableEq, Repr

namespace Outcome

/-- The value handed back to the caller, when there is one. -/
def value? {α : Type} : Outcome α → Option α
  | returned v => some v
  | exited _ _ _ => none
  | undefined => none

/-- The exception the call raised, when it raised one. -/
def thrown? {α : Type} : Outcome α → Option ex.Exception
  | returned _ => none
  | exited e _ _ => some e
  | undefined => none

/-- The call raised an exception of class `K`. -/
def failsWith {α : Type} (K : ex.Kind) (o : Outcome α) : Prop :=
  ∃ e, o.thrown? = some e ∧ e.kind = K

end Outcome

/-! ## HCube.h, HCube.cpp -/

/-- The data members of `class HCube`. -/
structure HCube (R : Type) where
  dimension : Int
  side : R
deriving DecidableEq, Repr

namespace HCube

variable {R : Type} [DoubleArith R]

/-- Source `HCube::HCube(const int& N)`: delegates to `HCube(N, 0.)`. -/
def ofDimension (N : Int) : HCube R := ⟨N, 0⟩

/-- Source `HCube::HCube(const double& s)`: delegates to `HCube(0, s)`. -/
def ofSide (s : R) : HCube R := ⟨0, s⟩

/-- Source `HCube::HCube()`: delegates to `HCube(0, 0.)`. -/
def init : HCube R := ⟨0, 0⟩

/-- Source `HCube::setDimension`: assigns the member of the receiver, then returns a copy of
`*this`.  The result is the pair (receiver after the call, returned value). -/
def setDimension (self : HCube R) (N : Int) : HCube R × HCube R :=
  let self1 : HCube R := { self with dimension := N }
  (self1, self1)

/-- Source `HCube::setSide`: assigns the member of the receiver, then returns a copy of
`*this`.  The result is the pair (receiver after the call, returned value). -/
def setSide (self : HCube R) (s : R) : HCube R × HCube R :=
  let self1 : HCube R := { self with side := s }
  (self1, self1)

/-- Source `HCube::getDimension`. -/
def getDimension (self : HCube R) : Int := self.dimension

/-- Source `HCube::getSide`. -/
def getSide (self : HCube R) : R := self.side

/-- Source `HCube::getVolume`: `std::pow(side, dimension)`. -/
def getVolume (self : HCube R) : R := DoubleArith.pow self.side self.dimension

/-- Source `operator+`: the `try` block throws when the dimensions differ; the handler prints
`e.what()` and a newline and calls `std::exit(1)`. -/
def operatorPlus (lhs rhs : HCube R) : Outcome (HCube R) :=
  let tried : Except ex.Exception Unit :=
    if lhs.dimension ≠ rhs.dimension then
      .error (ex.constructInfo .incompatible_objects
        "Cube dimensions are incompatible for sommation.")
    else .ok ()
  match tried with
  | .error e => .exited e (e.what ++ "\n") 1
  | .ok () => .returned ⟨lhs.dimension, lhs.side + rhs.side⟩

/-- Source `operator-`: as `operator+`, with its own message and `lhs.side - rhs.side`. -/
def operatorMinus (lhs rhs : HCube R) : Outcome (HCube R) :=
  let tried : Except ex.Exception Unit :=
    if lhs.dimension ≠ rhs.dimension then
      .error (ex.constructInfo .incompatible_objects
        "Cube dimensions are incompatible for subtraction.")
    else .ok ()
  match tried with
  | .error e => .exited e (e.what ++ "\n") 1
  | .ok () => .returned ⟨lhs.dimension, lhs.side - rhs.side⟩

/-- Source `operator*`: `d1+d2` is a sum of two `int`s and the exponent `1/(d1+d2)` a
division of two `int`s. -/
def operatorTimes (lhs rhs : HCube R) : Outcome (HCube R) :=
  let d1 := lhs.dimension
  let d2 := rhs.dimension
  let V := DoubleArith.pow lhs.side d1 * DoubleArith.pow rhs.side d2
  match cdiv 1 (intAdd d1 d2) with
  | none => .undefined
  | some q =>
    let newside := DoubleArith.pow V q
    .returned ⟨intAdd d1 d2, newside⟩

end HCube

/-- Source `HCube line(1,1.);` of `test_HCube.cpp`, with exact rational sides. -/
def line : HCube ℚ := ⟨1, 1⟩

/-- Source `HCube square(2,1.);` of `test_HCube.cpp`, with exact rational sides. -/
def square : HCube ℚ := ⟨2, 1⟩

/-- Source `HCube cube(3,1.);` of `test_HCube.cpp`, with exact rational sides. -/
def cube : HCube ℚ := ⟨3, 1⟩

/-! ## Theorems -/

/-- The `int` sum is the sum of the integers when that sum is a value of `int`. -/
theorem intAdd_of_inIntRange (a b : Int) (h : inIntRange (a + b)) : intAdd a b = a + b := by
  unfold inIntRange INT_MIN INT_MAX at h
  unfold intAdd
  omega

/-- The `int` sum does not depend on the order of the operands. -/
theorem intAdd_comm (a b : Int) : intAdd a b = intAdd b a := by
  unfold intAdd
  rw [Int.add_comm a b]

namespace HCube

variable {R : Type}

/-- When `d1 + d2` is a value of `int`, `operator*` computes with that sum. -/
theorem operatorTimes_of_inIntRange [DoubleArith R] (a b : HCube R)
    (h : inIntRange (a.dimension + b.dimension)) :
    operatorTimes a b =
      match cdiv 1 (a.dimension + b.dimension) with
      | none => .undefined
      | some q => .returned ⟨a.dimension + b.dimension,
          DoubleArith.pow
            (DoubleArith.pow a.side a.dimension * DoubleArith.pow b.side b.dimension) q⟩ := by
  simp only [operatorTimes, intAdd_of_inIntRange _ _ h]

/-- C1: for hypercubes `a`, `b` of equal dimension, `operator+` returns a hypercube whose
dimension is `a.dimension` and whose side is `a.side + b.side`. -/
theorem operatorPlus_eq_dimension [DoubleArith R] (a b : HCube R) (h : a.dimension = b.dimension) :
    ∃ c : HCube R, operatorPlus a b = .returned c ∧
      c.getDimension = a.getDimension ∧ c.getSide = a.getSide + b.getSide := by
  refine ⟨⟨a.dimension, a.side + b.side⟩, ?_, rfl, rfl⟩
  simp [operatorPlus, h]

/-- C1, at `line + line` of `test_HCube.cpp`: the sum has dimension 1 and side 2. -/
theorem operatorPlus_eq_dimension_witness :
    line.dimension = line.dimension ∧
      ∃ c : HCube ℚ, operatorPlus line line = .returned c ∧
        c.getDimension = 1 ∧ c.getSide = 2 := by
  obtain ⟨c, hc, hd, hs⟩ := operatorPlus_eq_dimension line line rfl
  refine ⟨rfl, c, hc, hd, ?_⟩
  rw [hs]
  show (1 : ℚ) + 1 = 2
  norm_num

/-- C2: `operator+` raises `incompatible_objects` and hands back no value exactly when
the dimensions differ, and so does `operator-`; the condition mentions no side. -/
theorem operatorPlus_operatorMinus_fail_iff [DoubleArith R] (a b : HCube R) :
    (((operatorPlus a b).failsWith .incompatible_objects ∧ (operatorPlus a b).value? = none)
        ↔ a.dimension ≠ b.dimension) ∧
      (((operatorMinus a b).failsWith .incompatible_objects ∧ (operatorMinus a b).value? = none)
        ↔ a.dimension ≠ b.dimension) := by
  by_cases h : a.dimension = b.dimension
  · simp [operatorPlus, operatorMinus, Outcome.failsWith, Outcome.thrown?, Outcome.value?, h]
  · simp [operatorPlus, operatorMinus, Outcome.failsWith, Outcome.thrown?, Outcome.value?, h,
      ex.constructInfo]

/-- C2, at `cube + square` (dimensions 3 and 2): the sum raises `incompatible_objects`
and hands back no value. -/
theorem operatorPlus_operatorMinus_fail_iff_witness :
    (operatorPlus cube square).failsWith .incompatible_objects ∧
      (operatorPlus cube square).value? = none :=
  (operatorPlus_operatorMinus_fail_iff cube square).1.2 (by decide)

/-- C3: for hypercubes `a`, `b` of equal dimension, `operator-` returns a hypercube whose
dimension is `a.dimension` and whose side is `a.side - b.side`. -/
theorem operatorMinus_eq_dimension [DoubleArith R] (a b : HCube R) (h : a.dimension = b.dimension) :
    ∃ c : HCube R, operatorMinus a b = .returned c ∧
      c.getDimension = a.getDimension ∧ c.getSide = a.getSide - b.getSide := by
  refine ⟨⟨a.dimension, a.side - b.side⟩, ?_, rfl, rfl⟩
  simp [operatorMinus, h]

/-- C3, at `HCube(2, 5.) - HCube(2, 3.)`: the difference has dimension 2 and side 2. -/
theorem operatorMinus_eq_dimension_witness :
    (⟨2, 5⟩ : HCube ℚ).dimension = (⟨2, 3⟩ : HCube ℚ).dimension ∧
      ∃ c : HCube ℚ, operatorMinus ⟨2, 5⟩ ⟨2, 3⟩ = .returned c ∧
        c.getDimension = 2 ∧ c.getSide = 2 := by
  obtain ⟨c, hc, hd, hs⟩ := operatorMinus_eq_dimension (⟨2, 5⟩ : HCube ℚ) ⟨2, 3⟩ rfl
  refine ⟨rfl, c, hc, hd, ?_⟩
  rw [hs]
  show (5 : ℚ) - 3 = 2
  norm_num

/-- C4, at `HCube(1, 2.) * HCube(1, 2.)`: the exponent `1/(1+1)` is the `int` 0, so the
product is `HCube(2, 1.)`; its volume is 1, while the volumes of the operands multiply
to 4 (the side the claim asks for is 2). -/
theorem operatorTimes_volume_lost :
    operatorTimes (⟨1, 2⟩ : HCube ℚ) ⟨1, 2⟩ = .returned ⟨2, 1⟩ ∧
      getVolume (⟨2, 1⟩ : HCube ℚ) = 1 ∧
      getVolume (⟨1, 2⟩ : HCube ℚ) * getVolume (⟨1, 2⟩ : HCube ℚ) = 4 ∧
      getVolume (⟨2, 1⟩ : HCube ℚ) ≠
        getVolume (⟨1, 2⟩ : HCube ℚ) * getVolume (⟨1, 2⟩ : HCube ℚ) := by
  have hq : cdiv 1 ((1 : Int) + 1) = some 0 := by decide
  have hv : getVolume (⟨2, 1⟩ : HCube ℚ) = 1 := by
    show (1 : ℚ) ^ (2 : Int) = 1
    norm_num
  have hw : getVolume (⟨1, 2⟩ : HCube ℚ) * getVolume (⟨1, 2⟩ : HCube ℚ) = 4 := by
    show (2 : ℚ) ^ (1 : Int) * (2 : ℚ) ^ (1 : Int) = 4
    norm_num
  refine ⟨?_, hv, hw, ?_⟩
  · rw [operatorTimes_of_inIntRange _ _ (by decide)]
    simp only [hq]
    show Outcome.returned (⟨1 + 1, ((2 : ℚ) ^ (1 : Int) * (2 : ℚ) ^ (1 : Int)) ^ (0 : Int)⟩ : HCube ℚ)
      = .returned ⟨2, 1⟩
    norm_num
  · rw [hv, hw]
    norm_num

/-- C5 as stated fails beyond the range of `int`: `HCube(2147483647, 1.) * HCube(1, 1.)`
has dimension -2147483648, not 2147483648; and the dimensions of
`HCube(-2147483648, 1.) * HCube(-2147483648, 1.)` add up to -4294967296, not to 0, yet
the `int` sum is 0, the product divides by it and returns nothing. -/
theorem operatorTimes_dimension_overflow :
    (⟨2147483647, 1⟩ : HCube ℚ).dimension + (⟨1, 1⟩ : HCube ℚ).dimension ≠ 0 ∧
    operatorTimes (⟨2147483647, 1⟩ : HCube ℚ) ⟨1, 1⟩ = .returned ⟨-2147483648, 1⟩ ∧
    (-2147483648 : Int) ≠
      (⟨2147483647, 1⟩ : HCube ℚ).dimension + (⟨1, 1⟩ : HCube ℚ).dimension ∧
    (⟨-2147483648, 1⟩ : HCube ℚ).dimension + (⟨-2147483648, 1⟩ : HCube ℚ).dimension ≠ 0 ∧
    operatorTimes (⟨-2147483648, 1⟩ : HCube ℚ) ⟨-2147483648, 1⟩ = .undefined := by
  have hd : intAdd 2147483647 1 = -2147483648 := by decide
  have hq : cdiv 1 (-2147483648) = some 0 := by decide
  have hz : cdiv 1 (intAdd (-2147483648) (-2147483648)) = none := by decide
  refine ⟨by decide, ?_, by decide, by decide, ?_⟩
  · simp only [operatorTimes, hd, hq, DoubleArith.pow_zero]
  · simp only [operatorTimes, hz]

/-- C5, amended: when the combined dimension is not 0 and is a value of `int`,
`operator*` returns a hypercube whose dimension is `a.dimension + b.dimension`, whether
or not the dimensions are equal; it raises no `incompatible_objects`. -/
theorem operatorTimes_dimension [DoubleArith R] (a b : HCube R)
    (h : a.dimension + b.dimension ≠ 0) (hr : inIntRange (a.dimension + b.dimension)) :
    (∃ c : HCube R, operatorTimes a b = .returned c ∧
        c.getDimension = a.getDimension + b.getDimension) ∧
      ¬ (operatorTimes a b).failsWith .incompatible_objects := by
  rw [operatorTimes_of_inIntRange a b hr]
  simp [cdiv, h, Outcome.failsWith, Outcome.thrown?, getDimension]

/-- C5, amended, at `square * line` of `test_HCube.cpp`: the product has dimension 3 and
side 1. -/
theorem operatorTimes_dimension_witness :
    square.dimension + line.dimension ≠ 0 ∧ inIntRange (square.dimension + line.dimension) ∧
      ∃ c : HCube ℚ, operatorTimes square line = .returned c ∧
        c.getDimension = 3 ∧ c.getSide = 1 := by
  have hne : square.dimension + line.dimension ≠ 0 := by decide
  have hr : inIntRange (square.dimension + line.dimension) := by decide
  obtain ⟨⟨c, hc, hd⟩, -⟩ := operatorTimes_dimension square line hne hr
  have hq : cdiv 1 ((2 : Int) + 1) = some 0 := by decide
  have he : operatorTimes square line = .returned ⟨3, 1⟩ := by
    rw [operatorTimes_of_inIntRange square line hr]
    simp only [square, line, hq]
    show Outcome.returned (⟨2 + 1, ((1 : ℚ) ^ (2 : Int) * (1 : ℚ) ^ (1 : Int)) ^ (0 : Int)⟩ : HCube ℚ)
      = .returned ⟨3, 1⟩
    norm_num
  rw [he] at hc
  cases hc
  exact ⟨hne, hr, _, he, rfl, rfl⟩

/-- C6: when the combined dimension is 0, `operator*` divides the `int` 1 by the `int` 0:
its behaviour is undefined, it raises no exception of any class and writes no report. -/
theorem operatorTimes_zero_dimension [DoubleArith R] (a b : HCube R) (h : a.dimension + b.dimension = 0) :
    operatorTimes a b = .undefined ∧ (operatorTimes a b).thrown? = none ∧
      ∀ K : ex.Kind, ¬ (operatorTimes a b).failsWith K := by
  have hr : inIntRange (a.dimension + b.dimension) := by
    rw [h]
    decide
  rw [operatorTimes_of_inIntRange a b hr]
  simp [cdiv, h, Outcome.failsWith, Outcome.thrown?]

/-- C6, at the product of two default-constructed hypercubes. -/
theorem operatorTimes_zero_dimension_witness :
    (init : HCube ℚ).dimension + (init : HCube ℚ).dimension = 0 ∧
      operatorTimes (init : HCube ℚ) init = .undefined ∧
      (operatorTimes (init : HCube ℚ) init).thrown? = none ∧
      ∀ K : ex.Kind, ¬ (operatorTimes (init : HCube ℚ) init).failsWith K :=
  ⟨by decide, operatorTimes_zero_dimension init init (by decide)⟩

/-- C7 as stated fails at the default-constructed hypercube: after `setDimension(3)` the
receiver has dimension 3, not 0, and after `setSide(2.)` it has side 2, not 0. -/
theorem setters_mutate_receiver :
    ((init : HCube ℚ).setDimension 3).1.dimension = 3 ∧ (init : HCube ℚ).dimension = 0 ∧
      ((init : HCube ℚ).setDimension 3).1.dimension ≠ (init : HCube ℚ).dimension ∧
      ((init : HCube ℚ).setSide 2).1.side = 2 ∧ (init : HCube ℚ).side = 0 ∧
      ((init : HCube ℚ).setSide 2).1.side ≠ (init : HCube ℚ).side := by
  refine ⟨rfl, rfl, by decide, rfl, rfl, ?_⟩
  show (2 : ℚ) ≠ 0
  norm_num

/-- C7, amended: after `setDimension(n)` the receiver has dimension `n` and the side it
had before; after `setSide(s)` it has side `s` and the dimension it had before. -/
theorem setters_receiver (h : HCube R) (n : Int) (s : R) :
    (h.setDimension n).1.dimension = n ∧ (h.setDimension n).1.side = h.side ∧
      (h.setSide s).1.side = s ∧ (h.setSide s).1.dimension = h.dimension :=
  ⟨rfl, rfl, rfl, rfl⟩

/-- C8: the value returned by `setDimension(n)` has dimension `n` and the side of `h`
before the call; the value returned by `setSide(s)` has side `s` and the dimension of
`h` before the call. -/
theorem setters_returned (h : HCube R) (n : Int) (s : R) :
    (h.setDimension n).2.getDimension = n ∧ (h.setDimension n).2.getSide = h.getSide ∧
      (h.setSide s).2.getSide = s ∧ (h.setSide s).2.getDimension = h.getDimension :=
  ⟨rfl, rfl, rfl, rfl⟩

/-- C9: `a + b` and `b + a` end the same way: both raise the same exception with the
same report and exit status, or both return, and the two values have the same dimension
and the same side. -/
theorem operatorPlus_symmetric [DoubleArith R] (a b : HCube R) :
    (∃ e out status, operatorPlus a b = .exited e out status ∧
        operatorPlus b a = .exited e out status) ∨
      (∃ u v : HCube R, operatorPlus a b = .returned u ∧ operatorPlus b a = .returned v ∧
        u.getDimension = v.getDimension ∧ u.getSide = v.getSide) := by
  by_cases h : a.dimension = b.dimension
  · right
    refine ⟨⟨a.dimension, a.side + b.side⟩, ⟨b.dimension, b.side + a.side⟩, ?_, ?_, h, ?_⟩
    · simp [operatorPlus, h]
    · simp [operatorPlus, h]
    · exact DoubleArith.add_comm a.side b.side
  · left
    have h2 : ¬ b.dimension = a.dimension := fun e => h e.symm
    refine ⟨ex.constructInfo .incompatible_objects
      "Cube dimensions are incompatible for sommation.",
      (ex.constructInfo .incompatible_objects
        "Cube dimensions are incompatible for sommation.").what ++ "\n", 1, ?_, ?_⟩
    · simp only [operatorPlus, ne_eq, h, not_false_eq_true, if_true]
    · simp only [operatorPlus, ne_eq, h2, not_false_eq_true, if_true]

/-- C10: when the dimensions differ, `operator+` raises `incompatible_objects` built from
the string "Cube dimensions are incompatible for sommation.", prints its `what()` and a
newline, and leaves with status 1. -/
theorem operatorPlus_report [DoubleArith R] (a b : HCube R) (h : a.dimension ≠ b.dimension) :
    operatorPlus a b =
      .exited
        (ex.constructInfo .incompatible_objects "Cube dimensions are incompatible for sommation.")
        ("EXCEPTION: trying to perform an operation on incompatible objects\n" ++
          "           Cube dimensions are incompatible for sommation." ++ "\n")
        1 := by
  simp only [operatorPlus, ne_eq, h, not_false_eq_true, if_true]
  rfl

/-- C10, at `cube + square`: the exception is of class `incompatible_objects`, its message
ends in "sommation.", and it is not the message with "summation.". -/
theorem operatorPlus_report_witness :
    cube.dimension ≠ square.dimension ∧
      ∃ e, (operatorPlus cube square).thrown? = some e ∧ e.kind = .incompatible_objects ∧
        e.what = "EXCEPTION: trying to perform an operation on incompatible objects\n" ++
          ex.pad ++ "Cube dimensions are incompatible for sommation." ∧
        e.what ≠ "EXCEPTION: trying to perform an operation on incompatible objects\n" ++
          ex.pad ++ "Cube dimensions are incompatible for summation." ∧
        e ≠ ex.constructInfo .incompatible_objects
          "Cube dimensions are incompatible for summation." := by
  have hne : cube.dimension ≠ square.dimension := by decide
  refine ⟨hne, _, congrArg Outcome.thrown? (operatorPlus_report cube square hne),
    rfl, by decide, by decide, by decide⟩

/-- C11: when the dimensions differ, `operator-` hands back no value; the exception it
raises is an `incompatible_objects` whose `what()` is the description line, a newline,
11 spaces and "Cube dimensions are incompatible for subtraction."; that text and a
newline are printed and the process leaves with status 1. -/
theorem operatorMinus_report [DoubleArith R] (a b : HCube R) (h : a.dimension ≠ b.dimension) :
    ∃ e : ex.Exception,
      operatorMinus a b = .exited e (e.what ++ "\n") 1 ∧
      e.kind = .incompatible_objects ∧
      e.what = "EXCEPTION: trying to perform an operation on incompatible objects" ++ "\n" ++
        "           " ++ "Cube dimensions are incompatible for subtraction." ∧
      (operatorMinus a b).value? = none := by
  refine ⟨ex.constructInfo .incompatible_objects
    "Cube dimensions are incompatible for subtraction.", ?_, rfl, by decide, ?_⟩
  · simp only [operatorMinus, ne_eq, h, not_false_eq_true, if_true]
  · simp only [operatorMinus, ne_eq, h, not_false_eq_true, if_true, Outcome.value?]

/-- C11, at `cube - square` (dimensions 3 and 2). -/
theorem operatorMinus_report_witness :
    cube.dimension ≠ square.dimension ∧
      ∃ e : ex.Exception,
        operatorMinus cube square = .exited e (e.what ++ "\n") 1 ∧
        e.kind = .incompatible_objects ∧
        e.what = "EXCEPTION: trying to perform an operation on incompatible objects" ++ "\n" ++
          "           " ++ "Cube dimensions are incompatible for subtraction." ∧
        (operatorMinus cube square).value? = none :=
  ⟨by decide, operatorMinus_report cube square (by decide)⟩

/-- C12: `getVolume` is `std::pow` of the side and the dimension; a hypercube of
dimension 0 has volume 1 whatever its side, 0 included; the default-constructed
hypercube has dimension 0, side 0 and volume 1. -/
theorem getVolume_pow [DoubleArith R] (h : HCube R) :
    h.getVolume = DoubleArith.pow h.getSide h.getDimension ∧
      (∀ s : R, (⟨0, s⟩ : HCube R).getVolume = 1) ∧
      (⟨0, 0⟩ : HCube R).getVolume = 1 ∧
      (init : HCube R).getDimension = 0 ∧ (init : HCube R).getSide = 0 ∧
      (init : HCube R).getVolume = 1 :=
  ⟨rfl, fun s => DoubleArith.pow_zero s, DoubleArith.pow_zero 0, rfl, rfl,
    DoubleArith.pow_zero 0⟩

/-- C12, with exact rational sides: the volume is the integer power of the side, as in
`HCube(3, 2.)` with volume 8 and `HCube(-2, 2.)` with volume 1/4. -/
theorem getVolume_pow_witness :
    (∀ h : HCube ℚ, h.getVolume = h.side ^ h.dimension) ∧
      (⟨3, 2⟩ : HCube ℚ).getVolume = 8 ∧ (⟨-2, 2⟩ : HCube ℚ).getVolume = 1 / 4 ∧
      (init : HCube ℚ).getVolume = 1 := by
  refine ⟨fun h => (getVolume_pow h).1, ?_, ?_, (getVolume_pow (init : HCube ℚ)).2.2.2.2.2⟩
  · show (2 : ℚ) ^ (3 : Int) = 8
    norm_num
  · show (2 : ℚ) ^ (-2 : Int) = 1 / 4
    norm_num

end HCube

namespace ex

/-- The severity label followed by a blank. -/
theorem warn_blank : _WARN ++ " " = "EXCEPTION: " := by decide

/-- The severity label followed by a blank and an opening bracket. -/
theorem warn_bracket : _WARN ++ " (" = "EXCEPTION: (" := by decide

/-- The padding string, written out. -/
theorem pad_spaces : pad = "           " := by decide

/-- The text returned by `what()` in each of the four constructor shapes, in terms of the
string literal that the constructor passes on, and the same for `Base_Exception` with
any description `D`. -/
theorem what_of_literal (K : Kind) (D F : String) (L : Int) (I : String) :
    (construct K).what = "EXCEPTION: " ++ K.messNoArgs ∧
    (constructInfo K I).what = "EXCEPTION: " ++ K.messInfo ++ "\n" ++ "           " ++ I ∧
    (constructOrigin K F L).what =
      "EXCEPTION: (" ++ F ++ ":" ++ toString L ++ ") " ++ K.messOrigin ∧
    (constructOriginInfo K F L I).what =
      "EXCEPTION: (" ++ F ++ ":" ++ toString L ++ ") " ++ K.messOriginInfo ++ "\n" ++
        "           " ++ I ∧
    (Base_Exception.ofMess D).what = "EXCEPTION: " ++ D ∧
    (Base_Exception.ofInfo I D).what = "EXCEPTION: " ++ D ++ "\n" ++ "           " ++ I ∧
    (Base_Exception.ofOrigin F L D).what =
      "EXCEPTION: (" ++ F ++ ":" ++ toString L ++ ") " ++ D ∧
    (Base_Exception.ofOriginInfo F L I D).what =
      "EXCEPTION: (" ++ F ++ ":" ++ toString L ++ ") " ++ D ++ "\n" ++ "           " ++ I := by
  simp only [Exception.what, Base_Exception.what, construct, constructInfo, constructOrigin,
    constructOriginInfo, Base_Exception.ofMess, Base_Exception.ofInfo, Base_Exception.ofOrigin,
    Base_Exception.ofOriginInfo, warn_blank, warn_bracket, pad_spaces, and_self]

/-- A string that follows the same beginning twice is the same string. -/
theorem append_left_cancel (p a b : String) (h : p ++ a = p ++ b) : a = b := by
  have hd := congrArg String.data h
  simp only [String.data_append] at hd
  exact String.ext (List.append_cancel_left hd)

/-- C13 as stated fails: the message of `cannot_open()` is "EXCEPTION: I cannot open the
file", not the label and the canonical description "cannot open the file"; the message of
`wrong_type("x")` carries a final period that the canonical description has not; and no
description `D` at all gives both the message of `wrong_type()` and that of
`wrong_type("x")`. -/
theorem what_format_not_canonical :
    (construct .cannot_open).what = "EXCEPTION: I cannot open the file" ∧
    (construct .cannot_open).what ≠ "EXCEPTION: " ++ Kind.cannot_open.canonicalDescription ∧
    (constructInfo .wrong_type "x").what =
      "EXCEPTION: trying to make an object of the wrong type.\n           x" ∧
    (constructInfo .wrong_type "x").what ≠
      "EXCEPTION: " ++ Kind.wrong_type.canonicalDescription ++ "\n" ++ "           " ++ "x" ∧
    ¬ ∃ D : String, (construct .wrong_type).what = "EXCEPTION: " ++ D ∧
        (constructInfo .wrong_type "x").what =
          "EXCEPTION: " ++ D ++ "\n" ++ "           " ++ "x" := by
  refine ⟨by decide, by decide, by decide, by decide, ?_⟩
  rintro ⟨D, h1, h2⟩
  have e1 : (construct .wrong_type).what =
      "EXCEPTION: " ++ "trying to read an object with the wrong type" := by decide
  have hD : D = "trying to read an object with the wrong type" :=
    (append_left_cancel "EXCEPTION: " _ _ (e1.symm.trans h1)).symm
  subst hD
  exact absurd h2 (by decide)

/-- C13, amended: for the nine kinds other than `unknown_filetype`, `wrong_type` and
`cannot_open`, with `D` the canonical description of the table, `what()` is: label and
`D`; label, `D`, newline, 11 spaces and info; label, origin in brackets and `D`; label,
origin in brackets, `D`, newline, 11 spaces and info.  For `cannot_open` the same four
texts hold with "I cannot open the file" for `D`; for `wrong_type` the three texts of the
constructors with arguments hold with "trying to make an object of the wrong type." -/
theorem what_format (K : Kind)
    (hK : K ∈ [Kind.divide_by_zero, Kind.negative_value, Kind.maximum_value,
      Kind.minimum_value, Kind.zero_value, Kind.wrong_number, Kind.undefined_argument,
      Kind.invalid_length, Kind.incompatible_objects])
    (F : String) (L : Int) (I : String) :
    ((construct K).what = "EXCEPTION: " ++ K.canonicalDescription ∧
      (constructInfo K I).what =
        "EXCEPTION: " ++ K.canonicalDescription ++ "\n" ++ "           " ++ I ∧
      (constructOrigin K F L).what =
        "EXCEPTION: (" ++ F ++ ":" ++ toString L ++ ") " ++ K.canonicalDescription ∧
      (constructOriginInfo K F L I).what =
        "EXCEPTION: (" ++ F ++ ":" ++ toString L ++ ") " ++ K.canonicalDescription ++ "\n" ++
          "           " ++ I) ∧
    ((construct .cannot_open).what = "EXCEPTION: " ++ "I cannot open the file" ∧
      (constructInfo .cannot_open I).what =
        "EXCEPTION: " ++ "I cannot open the file" ++ "\n" ++ "           " ++ I ∧
      (constructOrigin .cannot_open F L).what =
        "EXCEPTION: (" ++ F ++ ":" ++ toString L ++ ") " ++ "I cannot open the file" ∧
      (constructOriginInfo .cannot_open F L I).what =
        "EXCEPTION: (" ++ F ++ ":" ++ toString L ++ ") " ++ "I cannot open the file" ++ "\n" ++
          "           " ++ I) ∧
    ((constructInfo .wrong_type I).what =
        "EXCEPTION: " ++ "trying to make an object of the wrong type." ++ "\n" ++
          "           " ++ I ∧
      (constructOrigin .wrong_type F L).what =
        "EXCEPTION: (" ++ F ++ ":" ++ toString L ++ ") " ++
          "trying to make an object of the wrong type." ∧
      (constructOriginInfo .wrong_type F L I).what =
        "EXCEPTION: (" ++ F ++ ":" ++ toString L ++ ") " ++
          "trying to make an object of the wrong type." ++ "\n" ++ "           " ++ I) := by
  have hc := what_of_literal .cannot_open "" F L I
  have hw := what_of_literal .wrong_type "" F L I
  refine ⟨?_, ⟨hc.1, hc.2.1, hc.2.2.1, hc.2.2.2.1⟩, ⟨hw.2.1, hw.2.2.1, hw.2.2.2.1⟩⟩
  have hk := what_of_literal K "" F L I
  simp only [List.mem_cons, List.mem_singleton, List.mem_nil_iff, or_false] at hK
  rcases hK with h | h | h | h | h | h | h | h | h <;> subst h <;>
    exact ⟨hk.1, hk.2.1, hk.2.2.1, hk.2.2.2.1⟩

/-- C13, amended, at `divide_by_zero` with origin `HCube.cpp`, line 42 and info `d1+d2`,
and with the negative line number -7: the line number is written in decimal. -/
theorem what_format_witness :
    (construct .divide_by_zero).what = "EXCEPTION: trying to divide by zero" ∧
    (constructInfo .divide_by_zero "d1+d2").what =
      "EXCEPTION: trying to divide by zero\n           d1+d2" ∧
    (constructOrigin .divide_by_zero "HCube.cpp" 42).what =
      "EXCEPTION: (HCube.cpp:42) trying to divide by zero" ∧
    (constructOriginInfo .divide_by_zero "HCube.cpp" 42 "d1+d2").what =
      "EXCEPTION: (HCube.cpp:42) trying to divide by zero\n           d1+d2" ∧
    (constructOrigin .divide_by_zero "HCube.cpp" (-7)).what =
      "EXCEPTION: (HCube.cpp:-7) trying to divide by zero" := by
  have h := (what_format .divide_by_zero (by decide) "HCube.cpp" 42 "d1+d2").1
  have h7 := (what_format .divide_by_zero (by decide) "HCube.cpp" (-7) "").1.2.2.1
  refine ⟨?_, ?_, ?_, ?_, ?_⟩
  · rw [h.1]; decide
  · rw [h.2.1]; decide
  · rw [h.2.2.1]; decide
  · rw [h.2.2.2]; decide
  · rw [h7]; decide

/-- C14 as stated fails: `cannot_open` passes "I cannot open the file", not "cannot open
the file"; `wrong_type` with an info string passes the description with a final period,
and with no argument a different sentence; `unknown_filetype` passes "unkown". -/
theorem description_not_canonical :
    (construct .cannot_open).base.message = "I cannot open the file" ∧
    Kind.cannot_open.canonicalDescription = "cannot open the file" ∧
    (construct .cannot_open).base.message ≠ Kind.cannot_open.canonicalDescription ∧
    (construct .cannot_open).what = "EXCEPTION: I cannot open the file" ∧
    (constructInfo .wrong_type "x").base.message =
      "trying to make an object of the wrong type." ∧
    (constructInfo .wrong_type "x").base.message ≠ Kind.wrong_type.canonicalDescription ∧
    (construct .wrong_type).base.message = "trying to read an object with the wrong type" ∧
    (construct .wrong_type).base.message ≠ Kind.wrong_type.canonicalDescription ∧
    (construct .unknown_filetype).base.message = "trying to read an unkown filetype" ∧
    (construct .unknown_filetype).base.message ≠ Kind.unknown_filetype.canonicalDescription := by
  decide

/-- C14, amended: for the nine kinds other than `unknown_filetype`, `wrong_type` and
`cannot_open`, the description in each of the four constructor shapes is the canonical
description of the table; for `cannot_open` it is "I cannot open the file" in each shape;
for `wrong_type` it is "trying to make an object of the wrong type." in the three shapes
that take arguments. -/
theorem description_canonical (K : Kind)
    (hK : K ∈ [Kind.divide_by_zero, Kind.negative_value, Kind.maximum_value,
      Kind.minimum_value, Kind.zero_value, Kind.wrong_number, Kind.undefined_argument,
      Kind.invalid_length, Kind.incompatible_objects])
    (F : String) (L : Int) (I : String) :
    ((construct K).base.message = K.canonicalDescription ∧
      (constructInfo K I).base.message = K.canonicalDescription ∧
      (constructOrigin K F L).base.message = K.canonicalDescription ∧
      (constructOriginInfo K F L I).base.message = K.canonicalDescription) ∧
    ((construct .cannot_open).base.message = "I cannot open the file" ∧
      (constructInfo .cannot_open I).base.message = "I cannot open the file" ∧
      (constructOrigin .cannot_open F L).base.message = "I cannot open the file" ∧
      (constructOriginInfo .cannot_open F L I).base.message = "I cannot open the file") ∧
    ((constructInfo .wrong_type I).base.message =
        "trying to make an object of the wrong type." ∧
      (constructOrigin .wrong_type F L).base.message =
        "trying to make an object of the wrong type." ∧
      (constructOriginInfo .wrong_type F L I).base.message =
        "trying to make an object of the wrong type.") := by
  refine ⟨?_, ⟨rfl, rfl, rfl, rfl⟩, ⟨rfl, rfl, rfl⟩⟩
  simp only [List.mem_cons, List.mem_singleton, List.mem_nil_iff, or_false] at hK
  rcases hK with h | h | h | h | h | h | h | h | h <;> subst h <;> exact ⟨rfl, rfl, rfl, rfl⟩

/-- C14, amended, at `incompatible_objects`, the kind that `HCube.cpp` raises. -/
theorem description_canonical_witness :
    (construct .incompatible_objects).base.message =
        "trying to perform an operation on incompatible objects" ∧
      (constructInfo .incompatible_objects "x").base.message =
        "trying to perform an operation on incompatible objects" ∧
      (constructOrigin .incompatible_objects "HCube.cpp" 68).base.message =
        "trying to perform an operation on incompatible objects" ∧
      (constructOriginInfo .incompatible_objects "HCube.cpp" 68 "x").base.message =
        "trying to perform an operation on incompatible objects" :=
  (description_canonical .incompatible_objects (by decide) "HCube.cpp" 68 "x").1

/-- C16, at `wrong_type`: the constructor without arguments passes "trying to read an
object with the wrong type", the three other constructors pass "trying to make an object
of the wrong type."; every other kind passes one string in its four constructors. -/
theorem wrong_type_shapes_differ :
    (construct .wrong_type).base.message = "trying to read an object with the wrong type" ∧
    (constructInfo .wrong_type "x").base.message =
      "trying to make an object of the wrong type." ∧
    (construct .wrong_type).base.message ≠ (constructInfo .wrong_type "x").base.message ∧
    (construct .wrong_type).what = "EXCEPTION: trying to read an object with the wrong type" ∧
    (constructInfo .wrong_type "x").what =
      "EXCEPTION: trying to make an object of the wrong type.\n           x" ∧
    Kind.wrong_type.messInfo = Kind.wrong_type.messOrigin ∧
    Kind.wrong_type.messOrigin = Kind.wrong_type.messOriginInfo ∧
    (∀ K : Kind, K = .wrong_type ∨
      (K.messNoArgs = K.messInfo ∧ K.messInfo = K.messOrigin ∧
        K.messOrigin = K.messOriginInfo)) := by
  refine ⟨rfl, rfl, by decide, by decide, by decide, rfl, rfl, ?_⟩
  intro K
  cases K <;> first | exact Or.inl rfl | exact Or.inr ⟨rfl, rfl, rfl⟩

/-- C17: `pad` is `_WARN.length() + 1 = 11` blanks; in the message built from an info
string and no origin, the first line is the 11 characters "EXCEPTION: " and then the
description, the second line is the 11 characters of `pad` and then the info. -/
theorem pad_aligns (Info mess : String) :
    pad.length = _WARN.length + 1 ∧ pad.length = 11 ∧
    pad = String.mk (List.replicate 11 ' ') ∧
    (Base_Exception.ofInfo Info mess).what =
      (("EXCEPTION: " ++ mess) ++ "\n") ++ (pad ++ Info) ∧
    "EXCEPTION: ".length = pad.length := by
  refine ⟨by decide, by decide, by decide, ?_, by decide⟩
  simp only [Base_Exception.what, Base_Exception.ofInfo, warn_blank, String.append_assoc]

/-- C17, at the message of `operator-`: the description and the info both follow 11
characters on their line. -/
theorem pad_aligns_witness :
    (Base_Exception.ofInfo "Cube dimensions are incompatible for subtraction."
        "trying to perform an operation on incompatible objects").what =
      "EXCEPTION: trying to perform an operation on incompatible objects\n" ++
      "           Cube dimensions are incompatible for subtraction." ∧
    ("EXCEPTION: trying to perform an operation on incompatible objects".drop 11 =
      "trying to perform an operation on incompatible objects") ∧
    ("           Cube dimensions are incompatible for subtraction.".drop 11 =
      "Cube dimensions are incompatible for subtraction.") := by
  have h := (pad_aligns "Cube dimensions are incompatible for subtraction."
    "trying to perform an operation on incompatible objects").2.2.2.1
  refine ⟨?_, by decide, by decide⟩
  rw [h]
  decide

end ex

/-- The `int` quotient `1/n` is 0 as soon as `n` is at least 2 or at most -2. -/
theorem cdiv_one_far (n : Int) (h : 2 ≤ n ∨ n ≤ -2) : cdiv 1 n = some 0 := by
  have hn : n ≠ 0 := by omega
  have hq : Int.tdiv 1 n = 0 := by
    rcases h with h | h
    · exact Int.tdiv_eq_zero_of_lt (by decide) (by omega)
    · have hm : Int.tdiv 1 (-n) = 0 := Int.tdiv_eq_zero_of_lt (by decide) (by omega)
      have hneg : Int.tdiv 1 (-n) = -(Int.tdiv 1 n) := Int.tdiv_neg 1 n
      omega
  simp [cdiv, hn, hq]

namespace HCube

variable {R : Type}

/-- C18 as stated fails beyond the range of `int`: the dimensions of
`HCube(-2147483648, 1.) * HCube(-2147483647, -1.)` add up to -4294967295, the `int` sum
is 1, the exponent is 1 and the product is `HCube(1, -1.)`, of side -1; the dimensions
of `HCube(-2147483648, 2.) * HCube(-2147483648, 2.)` add up to -4294967296, the `int`
sum is 0 and there is no product. -/
theorem operatorTimes_side_one_overflow :
    (⟨-2147483648, 1⟩ : HCube ℚ).dimension + (⟨-2147483647, -1⟩ : HCube ℚ).dimension ≤ -2 ∧
    operatorTimes (⟨-2147483648, 1⟩ : HCube ℚ) ⟨-2147483647, -1⟩ = .returned ⟨1, -1⟩ ∧
    (⟨1, -1⟩ : HCube ℚ).getSide ≠ 1 ∧
    (⟨-2147483648, 2⟩ : HCube ℚ).dimension + (⟨-2147483648, 2⟩ : HCube ℚ).dimension ≤ -2 ∧
    operatorTimes (⟨-2147483648, 2⟩ : HCube ℚ) ⟨-2147483648, 2⟩ = .undefined := by
  have hd : intAdd (-2147483648) (-2147483647) = 1 := by decide
  have hq : cdiv 1 1 = some 1 := by decide
  have hz : cdiv 1 (intAdd (-2147483648) (-2147483648)) = none := by decide
  have hodd : Odd (-2147483647 : Int) := ⟨-1073741824, by norm_num⟩
  have hv : DoubleArith.pow (1 : ℚ) (-2147483648) * DoubleArith.pow (-1 : ℚ) (-2147483647)
      = -1 := by
    show (1 : ℚ) ^ (-2147483648 : Int) * (-1 : ℚ) ^ (-2147483647 : Int) = -1
    rw [one_zpow, one_mul, hodd.neg_one_zpow]
  refine ⟨by decide, ?_, ?_, by decide, ?_⟩
  · simp only [operatorTimes, hd, hq, DoubleArith.pow_one, hv]
  · show (-1 : ℚ) ≠ 1
    norm_num
  · simp only [operatorTimes, hz]

/-- C18, amended: when the combined dimension is a value of `int` and is at least 2 or at
most -2, the exponent `1/(d1+d2)` is the `int` 0 and the side of the product is 1,
whatever the sides of the operands. -/
theorem operatorTimes_side_one [DoubleArith R] (a b : HCube R)
    (hr : inIntRange (a.dimension + b.dimension))
    (h : 2 ≤ a.dimension + b.dimension ∨ a.dimension + b.dimension ≤ -2) :
    cdiv 1 (a.dimension + b.dimension) = some 0 ∧
      ∃ c : HCube R, operatorTimes a b = .returned c ∧ c.getSide = 1 ∧
        c.getDimension = a.dimension + b.dimension := by
  have hq := cdiv_one_far (a.dimension + b.dimension) h
  refine ⟨hq, ⟨a.dimension + b.dimension, 1⟩, ?_, rfl, rfl⟩
  rw [operatorTimes_of_inIntRange a b hr]
  simp only [hq, DoubleArith.pow_zero]

/-- C18, amended, at `HCube(2, 3.) * HCube(3, 5.)` and at `HCube(-1, 3.) * HCube(-1, 5.)`:
the products are `HCube(5, 1.)` and `HCube(-2, 1.)`. -/
theorem operatorTimes_side_one_witness :
    inIntRange ((2 : Int) + 3) ∧ ((2 : Int) ≤ 2 + 3 ∨ (2 : Int) + 3 ≤ -2) ∧
      (∃ c : HCube ℚ, operatorTimes ⟨2, 3⟩ ⟨3, 5⟩ = .returned c ∧ c.getSide = 1 ∧
        c.getDimension = 5) ∧
      (∃ c : HCube ℚ, operatorTimes ⟨-1, 3⟩ ⟨-1, 5⟩ = .returned c ∧ c.getSide = 1 ∧
        c.getDimension = -2) :=
  ⟨by decide, by decide,
    (operatorTimes_side_one (⟨2, 3⟩ : HCube ℚ) ⟨3, 5⟩ (by decide) (by decide)).2,
    (operatorTimes_side_one (⟨-1, 3⟩ : HCube ℚ) ⟨-1, 5⟩ (by decide) (by decide)).2⟩

/-- C19: when the combined dimension is 1, the product has dimension 1, its side is
`pow(a.side, a.dimension) * pow(b.side, b.dimension)`, and its volume is the product of
the volumes of the operands. -/
theorem operatorTimes_dimension_one [DoubleArith R] (a b : HCube R)
    (h : a.dimension + b.dimension = 1) :
    ∃ c : HCube R, operatorTimes a b = .returned c ∧ c.getDimension = 1 ∧
      c.getSide = DoubleArith.pow a.side a.dimension * DoubleArith.pow b.side b.dimension ∧
      c.getVolume = a.getVolume * b.getVolume := by
  have hq : cdiv 1 1 = some 1 := by decide
  refine ⟨⟨1, DoubleArith.pow a.side a.dimension * DoubleArith.pow b.side b.dimension⟩,
    ?_, rfl, rfl, ?_⟩
  · have hr : inIntRange (a.dimension + b.dimension) := by
      rw [h]
      decide
    rw [operatorTimes_of_inIntRange a b hr]
    simp only [h, hq, DoubleArith.pow_one]
  · simp only [getVolume, DoubleArith.pow_one]

/-- C19, at the default-constructed hypercube times `line`: dimension 1 and side 1. -/
theorem operatorTimes_dimension_one_witness :
    (init : HCube ℚ).dimension + line.dimension = 1 ∧
      ∃ c : HCube ℚ, operatorTimes init line = .returned c ∧ c.getDimension = 1 ∧
        c.getSide = 1 ∧ c.getVolume = init.getVolume * line.getVolume := by
  obtain ⟨c, hc, hd, hs, hv⟩ := operatorTimes_dimension_one (init : HCube ℚ) line (by decide)
  refine ⟨by decide, c, hc, hd, ?_, hv⟩
  rw [hs]
  show (0 : ℚ) ^ (0 : Int) * (1 : ℚ) ^ (1 : Int) = 1
  norm_num

/-- C20 as stated fails beyond the range of `int`: the dimensions of
`HCube(-2147483648, 1.)` and `HCube(-2147483648, 2.)` add up to -4294967296, not to 0,
yet the `int` sum is 0 and the product divides by it in either order: there is no
product, hence no dimension and no side. -/
theorem operatorTimes_commutative_overflow :
    (⟨-2147483648, 1⟩ : HCube ℚ).dimension + (⟨-2147483648, 2⟩ : HCube ℚ).dimension ≠ 0 ∧
    operatorTimes (⟨-2147483648, 1⟩ : HCube ℚ) ⟨-2147483648, 2⟩ = .undefined ∧
    operatorTimes (⟨-2147483648, 2⟩ : HCube ℚ) ⟨-2147483648, 1⟩ = .undefined ∧
    (operatorTimes (⟨-2147483648, 1⟩ : HCube ℚ) ⟨-2147483648, 2⟩).value? = none := by
  have hz : cdiv 1 (intAdd (-2147483648) (-2147483648)) = none := by decide
  refine ⟨by decide, ?_, ?_, ?_⟩
  · simp only [operatorTimes, hz]
  · simp only [operatorTimes, hz]
  · simp only [operatorTimes, hz, Outcome.value?]

/-- C20, amended: when the combined dimension is not 0 and is a value of `int`, `a * b`
and `b * a` both return, and the two values have the same dimension and the same side. -/
theorem operatorTimes_commutative [DoubleArith R] (a b : HCube R)
    (h : a.dimension + b.dimension ≠ 0) (hr : inIntRange (a.dimension + b.dimension)) :
    ∃ u v : HCube R, operatorTimes a b = .returned u ∧ operatorTimes b a = .returned v ∧
      u.getDimension = v.getDimension ∧ u.getSide = v.getSide := by
  have hc : b.dimension + a.dimension = a.dimension + b.dimension := Int.add_comm _ _
  have hr2 : inIntRange (b.dimension + a.dimension) := by
    rw [hc]
    exact hr
  have hm : DoubleArith.pow b.side b.dimension * DoubleArith.pow a.side a.dimension =
      DoubleArith.pow a.side a.dimension * DoubleArith.pow b.side b.dimension :=
    DoubleArith.mul_comm _ _
  refine ⟨⟨a.dimension + b.dimension,
      DoubleArith.pow (DoubleArith.pow a.side a.dimension * DoubleArith.pow b.side b.dimension)
        (Int.tdiv 1 (a.dimension + b.dimension))⟩,
    ⟨a.dimension + b.dimension,
      DoubleArith.pow (DoubleArith.pow a.side a.dimension * DoubleArith.pow b.side b.dimension)
        (Int.tdiv 1 (a.dimension + b.dimension))⟩, ?_, ?_, rfl, rfl⟩
  · rw [operatorTimes_of_inIntRange a b hr]
    simp only [cdiv, h, if_false]
  · rw [operatorTimes_of_inIntRange b a hr2]
    simp only [cdiv, hc, hm, h, if_false]

/-- C20, amended, at `line * square` and `square * line` of `test_HCube.cpp`: both are
`HCube(3, 1.)`. -/
theorem operatorTimes_commutative_witness :
    line.dimension + square.dimension ≠ 0 ∧ inIntRange (line.dimension + square.dimension) ∧
      ∃ u v : HCube ℚ, operatorTimes line square = .returned u ∧
        operatorTimes square line = .returned v ∧
        u.getDimension = v.getDimension ∧ u.getSide = v.getSide ∧
        u.getDimension = 3 := by
  have hne : line.dimension + square.dimension ≠ 0 := by decide
  have hr : inIntRange (line.dimension + square.dimension) := by decide
  obtain ⟨u, v, hu, hv, hd, hs⟩ := operatorTimes_commutative line square hne hr
  refine ⟨hne, hr, u, v, hu, hv, hd, hs, ?_⟩
  have hq : cdiv 1 ((1 : Int) + 2) = some 0 := by decide
  have he : operatorTimes line square =
      .returned ⟨1 + 2, DoubleArith.pow
        (DoubleArith.pow (1 : ℚ) 1 * DoubleArith.pow (1 : ℚ) 2) 0⟩ := by
    rw [operatorTimes_of_inIntRange line square hr]
    simp only [line, square, hq]
  rw [he] at hu
  cases hu
  rfl

/-- C15: `HCube(n, s)` has dimension `n` and side `s`; `HCube(n)` has dimension `n` and
side 0; the side-only constructor of `HCube.cpp` gives dimension 0 and side `s`; the
default constructor gives dimension 0 and side 0. -/
theorem constructors_getters [DoubleArith R] (n : Int) (s : R) :
    (HCube.mk n s).getDimension = n ∧ (HCube.mk n s).getSide = s ∧
    (ofDimension n : HCube R).getDimension = n ∧ (ofDimension n : HCube R).getSide = 0 ∧
    (ofSide s).getDimension = 0 ∧ (ofSide s).getSide = s ∧
    (init : HCube R).getDimension = 0 ∧ (init : HCube R).getSide = 0 :=
  ⟨rfl, rfl, rfl, rfl, rfl, rfl, rfl, rfl⟩

/-- C15, at `HCube(3, 1.)` (`cube` of `test_HCube.cpp`), `HCube(3)` and the side 5/2. -/
theorem constructors_getters_witness :
    cube.getDimension = 3 ∧ cube.getSide = 1 ∧
    (ofDimension 3 : HCube ℚ).getDimension = 3 ∧ (ofDimension 3 : HCube ℚ).getSide = 0 ∧
    (ofSide (5 / 2 : ℚ)).getDimension = 0 ∧ (ofSide (5 / 2 : ℚ)).getSide = 5 / 2 ∧
    (init : HCube ℚ).getDimension = 0 ∧ (init : HCube ℚ).getSide = 0 :=
  ⟨rfl, rfl, (constructors_getters 3 (5 / 2 : ℚ)).2.2⟩

end HCube
